import Mathlib

/-!
Shallow embedding of the authentication/session core of the
BannoCloudflarePublic worker:

* `KVService` (src/services/kv.service.ts): encrypt-on-write /
  decrypt-on-read wrapper over the Cloudflare KV namespace, with key
  rotation (a list of secrets, the head being the primary) and a
  plaintext-fallback read path.
* `SessionService` (src/services/session.service.ts): session records,
  the user -> session index, refresh-on-read.
* `generateAuthUrl` / `processAuthCallback` (src/services/auth.service.ts)
  and the `/callback` route handler (src/routes/auth.routes.ts together
  with `handleOAuthCallback` of src/utils/auth.ts).

External primitives are modelled explicitly:

* the KV namespace is a function from keys to entries (value plus the
  absolute-epoch `expiration` the code passes to `kv.put`); a read at
  time `now` of an entry whose expiration has passed behaves as absent;
* AES-GCM under a SHA-256-derived key is modelled as an authenticated
  envelope: a ciphertext remembers the derived key and the iv, and
  decryption succeeds exactly for a secret deriving the same key
  (`deriveKey` is an injective model of SHA-256 key derivation);
* `JSON.stringify` / `JSON.parse` is an injective encoding, modelled as
  the identity on the inductive `KVVal` of values this code stores;
* `Date.now()`, random bytes, ivs, `crypto.randomUUID()` and the two
  network calls (token exchange and token refresh) are parameters.

JavaScript truthiness on optional strings and numbers (`x || d`,
`if (!x)`) is modelled by `jsOrStr`, `jsOrNat` and `jsTruthy`: the empty
string, `0`, and an absent value are falsy.
-/

namespace BannoCF

/-- Token endpoint JSON response body (`TokenResponse` in
auth.service.ts).  A JSON field that may be absent is an `Option`. -/
structure TokenResponse where
  access_token : String
  id_token : Option String
  refresh_token : Option String
  expires_in : Option Nat
  deriving Repr, DecidableEq

/-- JavaScript `x || d` on an optional string: absent and `""` are falsy. -/
def jsOrStr : Option String → String → String
  | some s, d => if s = "" then d else s
  | none, d => d

/-- JavaScript `x || d` on an optional number: absent and `0` are falsy. -/
def jsOrNat : Option Nat → Nat → Nat
  | some n, d => if n = 0 then d else n
  | none, d => d

/-- JavaScript truthiness of an optional string (`if (x)`). -/
def jsTruthy : Option String → Bool
  | some s => ! (s = "")
  | none => false

/-- Session record as persisted in KV by the session service:
`expiresAt` is in epoch seconds (`Math.floor(data.expiresAt / 1000)`). -/
structure SessionRec where
  userId : String
  accessToken : String
  refreshToken : String
  expiresAt : Nat
  deriving Repr, DecidableEq

/-- Session record as exchanged with callers of the session service:
`expiresAt` is in epoch milliseconds (`SessionData` in
session.service.ts). -/
structure SessionData where
  userId : String
  accessToken : String
  refreshToken : String
  expiresAt : Nat
  deriving Repr, DecidableEq

/-- JSON values this application writes through the KV service: the
session-id string of the user index, a session record, or a PKCE state
entry `{codeVerifier}`. -/
inductive KVVal where
  | vstr (s : String)
  | vrec (r : SessionRec)
  | vauth (codeVerifier : String)
  deriving Repr, DecidableEq

/-- Injective model of the SHA-256 key derivation of
`KVService.getKey`: all that matters to the code is that distinct
secrets derive distinct AES-GCM keys and the derivation is
deterministic. -/
def deriveKey (secret : String) : String := secret

/-- Stored shape of a value: either the serialized plaintext (no secret
configured) or the `base64(iv):base64(ciphertext)` envelope; the
envelope authenticates the derived key that encrypted it. -/
inductive StoredValue (α : Type) where
  | plain (v : α)
  | enc (keyHash : String) (iv : Nat) (v : α)
  deriving Repr, DecidableEq

/-- One KV entry: the stored value plus the absolute-epoch-seconds
`expiration` the code passes in `kv.put(key, value, { expiration })`. -/
structure Entry (α : Type) where
  val : StoredValue α
  exp : Option Nat
  deriving Repr, DecidableEq

/-- The Cloudflare KV namespace, keyed by strings. -/
def Store (α : Type) : Type := String → Option (Entry α)

/-- Raw backend read at time `now`: an entry whose `expiration` has been
reached behaves as absent (Cloudflare TTL expiry). -/
def kvRawGet {α : Type} (σ : Store α) (k : String) (now : Nat) : Option (StoredValue α) :=
  match σ k with
  | some e =>
    match e.exp with
    | none => some e.val
    | some t => if now < t then some e.val else none
  | none => none

/-- Raw backend write (unconditional overwrite). -/
def kvRawPut {α : Type} (σ : Store α) (k : String) (e : Entry α) : Store α :=
  fun q => if q = k then some e else σ q

/-- Raw backend delete. -/
def kvRawDelete {α : Type} (σ : Store α) (k : String) : Store α :=
  fun q => if q = k then none else σ q

/-- Configuration of a constructed `KVService`: the normalized ordered
secret list (head = primary). -/
structure KVConfig where
  secrets : List String
  deriving Repr, DecidableEq

/-- The `secret?: string | string[]` constructor argument. -/
inductive SecretArg where
  | noSecret
  | one (s : String)
  | many (l : List String)
  deriving Repr, DecidableEq

/-- Normalization performed by the `KVService` constructor:
an array keeps its truthy elements; a truthy single string becomes a
singleton; anything falsy yields no secrets. -/
def normalizeSecrets : SecretArg → List String
  | .noSecret => []
  | .one s => if s = "" then [] else [s]
  | .many l => l.filter (fun s => ! (s = ""))

/-- Constructor of `KVService`: `requireSecret` defaults to true and is
false only when the option is literally `false`; with encryption
required and no secret the constructor throws. -/
def KVService.mk (secret : SecretArg) (requireSecretOpt : Option Bool) :
    Except String KVConfig :=
  let secrets := normalizeSecrets secret
  if requireSecretOpt ≠ some false ∧ secrets = [] then
    .error "KV encryption required but no SESSION_ENC_SECRET provided"
  else
    .ok ⟨secrets⟩

/-- Attempt to open the stored envelope with one secret: AES-GCM
authentication succeeds exactly when the secret derives the key the
envelope was sealed with; a plaintext value does not have the two-part
`iv:ciphertext` shape and is skipped (`parts.length !== 2`). -/
def tryDecrypt {α : Type} (secret : String) : StoredValue α → Option α
  | .enc kh _ v => if deriveKey secret = kh then some v else none
  | .plain _ => none

/-- Try each configured secret in list order, first success wins. -/
def firstDecrypt {α : Type} (secrets : List String) (sv : StoredValue α) : Option α :=
  match secrets with
  | [] => none
  | s :: rest =>
    match tryDecrypt s sv with
    | some v => some v
    | none => firstDecrypt rest sv

/-- Final fallback of `get`: interpret the raw stored string as
serialized plaintext; an `iv:ciphertext` envelope is not valid JSON and
fails to parse. -/
def parsePlain {α : Type} : StoredValue α → Option α
  | .plain v => some v
  | .enc _ _ _ => none

/-- Model of `KVService.put`: serialize, then encrypt under the primary
(head) secret when one is configured; store with the given absolute
expiration. -/
def KVService.put {α : Type} (cfg : KVConfig) (σ : Store α) (k : String)
    (v : α) (iv : Nat) (expiration : Option Nat) : Store α :=
  let sv : StoredValue α :=
    match cfg.secrets with
    | [] => .plain v
    | s :: _ => .enc (deriveKey s) iv v
  kvRawPut σ k ⟨sv, expiration⟩

/-- Model of `KVService.get`: read, then (no secrets => parse plaintext;
otherwise try every secret in order, then fall back to plaintext, then
give up with null). -/
def KVService.get {α : Type} (cfg : KVConfig) (σ : Store α) (k : String)
    (now : Nat) : Option α :=
  match kvRawGet σ k now with
  | none => none
  | some sv =>
    match cfg.secrets with
    | [] => parsePlain sv
    | _ :: _ =>
      match firstDecrypt cfg.secrets sv with
      | some v => some v
      | none => parsePlain sv

/-- Model of `KVService.delete`. -/
def KVService.delete {α : Type} (_cfg : KVConfig) (σ : Store α) (k : String) : Store α :=
  kvRawDelete σ k

/-- The store as the session service sees it. -/
def SStore : Type := Store KVVal

/-- Key of a session record (`session:` prefix, session.service.ts). -/
def sessionKey (sid : String) : String := "session:" ++ sid

/-- Key of the user -> session index (`user_session:` prefix). -/
def userKey (uid : String) : String := "user_session:" ++ uid

/-- Key of a PKCE state entry (`auth_state:` prefix, auth.service.ts). -/
def authStateKey (st : String) : String := "auth_state:" ++ st

/-- Thirty days in seconds, the session TTL (`60 * 60 * 24 * 30`). -/
def thirtyDays : Nat := 60 * 60 * 24 * 30

/-- Constructor of `SessionService`: it builds its `KVService` with
`{ requireSecret: true }`.  The TypeScript parameter type is `string`,
but every caller passes `c.env.SESSION_ENC_SECRET!`, a possibly-absent
binding, so the input is an `Option String` here. -/
def SessionService.mk (secret : Option String) : Except String KVConfig :=
  KVService.mk (match secret with | none => .noSecret | some s => .one s) (some true)

/-- Session-service KV configuration once construction succeeded with
secret `s`. -/
def sessCfg (s : String) : KVConfig := ⟨[s]⟩

/-- Model of `SessionService.getUserSessionId`: read of the user index.
The source casts the decrypted JSON to `string` without a check; a value
of another shape cannot be produced by this service's own writes and is
mapped to `none`. -/
def SessionService.getUserSessionId (s : String) (σ : SStore) (now : Nat)
    (uid : String) : Option String :=
  match KVService.get (sessCfg s) σ (userKey uid) now with
  | some (.vstr v) => some v
  | some _ => none
  | none => none

/-- Model of `SessionService.deleteSession` (best-effort delete). -/
def SessionService.deleteSession (s : String) (σ : SStore) (sid : String) : SStore :=
  KVService.delete (sessCfg s) σ (sessionKey sid)

/-- Model of `SessionService.deleteUserSession` (best-effort delete). -/
def SessionService.deleteUserSession (s : String) (σ : SStore) (uid : String) : SStore :=
  KVService.delete (sessCfg s) σ (userKey uid)

/-- Model of `SessionService.updateSession`: unconditional overwrite of
the record, converting the caller's epoch-milliseconds `expiresAt` with
`Math.floor(data.expiresAt / 1000)`, TTL reset to thirty days from
`now`. -/
def SessionService.updateSession (s : String) (σ : SStore) (now : Nat)
    (sid : String) (data : SessionData) (iv : Nat) : SStore :=
  KVService.put (sessCfg s) σ (sessionKey sid)
    (.vrec ⟨data.userId, data.accessToken, data.refreshToken, data.expiresAt / 1000⟩)
    iv (some (now + thirtyDays))

/-- Model of `SessionService.createUserSession`: read the user index; if
it holds a truthy id different from `sid`, delete that old session; then
write the new record and the new index entry, both with the thirty-day
expiration. -/
def SessionService.createUserSession (s : String) (σ : SStore) (now : Nat)
    (sid uid : String) (data : SessionData) (iv1 iv2 : Nat) : SStore :=
  let exp := now + thirtyDays
  let σ1 : SStore :=
    match SessionService.getUserSessionId s σ now uid with
    | some e => if e ≠ "" ∧ e ≠ sid then SessionService.deleteSession s σ e else σ
    | none => σ
  let σ2 := KVService.put (sessCfg s) σ1 (sessionKey sid)
    (.vrec ⟨data.userId, data.accessToken, data.refreshToken, data.expiresAt / 1000⟩)
    iv1 (some exp)
  KVService.put (sessCfg s) σ2 (userKey uid) (.vstr sid) iv2 (some exp)

/-- Model of `SessionService.getSession`: read the record; when its
`expiresAt` is truthy (nonzero) and before `now`, attempt the upstream
refresh — on success persist and return the refreshed record, on
failure delete the session and return null; otherwise return the record
with `expiresAt` scaled back to milliseconds.  `refresh` is the
`refreshAccessToken` network call: `none` is a thrown non-2xx failure.
A decrypted value of a shape other than a record cannot be produced by
this service's own writes and is mapped to `none`. -/
def SessionService.getSession (s : String) (σ : SStore) (now : Nat)
    (sid : String) (refresh : String → Option TokenResponse) (iv : Nat) :
    Option SessionData × SStore :=
  match KVService.get (sessCfg s) σ (sessionKey sid) now with
  | none => (none, σ)
  | some (.vrec r) =>
    if r.expiresAt ≠ 0 ∧ r.expiresAt < now then
      match refresh r.refreshToken with
      | some tr =>
        let newExpiresAt := now + jsOrNat tr.expires_in 3600
        let d : SessionData :=
          ⟨r.userId, tr.access_token, jsOrStr tr.refresh_token r.refreshToken,
            newExpiresAt * 1000⟩
        (some d, SessionService.updateSession s σ now sid d iv)
      | none => (none, SessionService.deleteSession s σ sid)
    else
      (some ⟨r.userId, r.accessToken, r.refreshToken, r.expiresAt * 1000⟩, σ)
  | some _ => (none, σ)

/-- Model of `SessionService.refreshTokens`: manual refresh; on upstream
failure the session is left in place (`return null` inside the catch),
unlike the implicit refresh of `getSession`. -/
def SessionService.refreshTokens (s : String) (σ : SStore) (now : Nat)
    (sid : String) (refresh : String → Option TokenResponse) (iv : Nat) :
    Option SessionData × SStore :=
  match KVService.get (sessCfg s) σ (sessionKey sid) now with
  | none => (none, σ)
  | some (.vrec r) =>
    match refresh r.refreshToken with
    | some tr =>
      let newExpiresAt := now + jsOrNat tr.expires_in 3600
      let d : SessionData :=
        ⟨r.userId, tr.access_token, jsOrStr tr.refresh_token r.refreshToken,
          newExpiresAt * 1000⟩
      (some d, SessionService.updateSession s σ now sid d iv)
    | none => (none, σ)
  | some _ => (none, σ)

/-- Base64 alphabet used by `btoa`. -/
def b64Chars : List Char :=
  "ABCDEFGHIJKLMNOPQRSTUVWXYZabcdefghijklmnopqrstuvwxyz0123456789+/".toList

/-- Character of the base64 alphabet at a 6-bit index. -/
def b64Char (n : Nat) : Char := b64Chars.getD n 'A'

/-- Standard base64 of a byte list (each byte < 256), with `=` padding,
as produced by `btoa(String.fromCharCode(...))`. -/
def encodeBase64 : List Nat → List Char
  | [] => []
  | [a] => [b64Char (a / 4), b64Char (a % 4 * 16), '=', '=']
  | [a, b] => [b64Char (a / 4), b64Char (a % 4 * 16 + b / 16), b64Char (b % 16 * 4), '=']
  | a :: b :: c :: rest =>
    b64Char (a / 4) :: b64Char (a % 4 * 16 + b / 16) ::
      b64Char (b % 16 * 4 + c / 64) :: b64Char (c % 64) :: encodeBase64 rest

/-- The two character replacements of `base64UrlEncode`
(`+` to `-`, `/` to `_`). -/
def b64UrlSwap (ch : Char) : Char :=
  if ch = '+' then '-' else if ch = '/' then '_' else ch

/-- Strip the trailing run of `=` characters (`replace(/=+$/, '')`). -/
def stripTrailingEq (l : List Char) : List Char :=
  (l.reverse.dropWhile (fun ch => ch = '=')).reverse

/-- Model of `base64UrlEncode` of auth.service.ts: `btoa`, swap the two
URL-unsafe characters, strip the padding. -/
def base64UrlEncode (bytes : List Nat) : String :=
  ⟨stripTrailingEq ((encodeBase64 bytes).map b64UrlSwap)⟩

/-- The fixed OAuth scope set of auth.service.ts. -/
def SCOPES : List String :=
  ["openid",
   "offline_access",
   "profile",
   "https://api.banno.com/consumer/auth/accounts.readonly",
   "https://api.banno.com/consumer/auth/user.readonly",
   "https://api.banno.com/consumer/auth/user.profile.readonly",
   "https://api.banno.com/consumer/claim/devices.readonly",
   "https://api.banno.com/consumer/claim/netteller_id.readonly",
   "https://api.banno.com/consumer/claim/phone_numbers.readonly",
   "https://api.banno.com/consumer/claim/user_type.readonly",
   "https://api.banno.com/consumer/auth/documents.readonly",
   "https://api.banno.com/consumer/auth/transactions.detail.readonly",
   "https://api.banno.com/consumer/claim/customer_identifier.readonly",
   "https://api.banno.com/consumer/claim/loans.readonly",
   "https://api.banno.com/consumer/claim/shares.readonly"]

/-- Uppercase hexadecimal digit. -/
def hexDigit (n : Nat) : Char := "0123456789ABCDEF".toList.getD n '0'

/-- Characters `URLSearchParams` serializes verbatim
(`application/x-www-form-urlencoded`): ASCII alphanumerics and
`*`, `-`, `.`, `_`. -/
def isUrlSafe (ch : Char) : Bool :=
  ch.isAlphanum || ch = '*' || ch = '-' || ch = '.' || ch = '_'

/-- Percent-encoding of one character (ASCII range; the values this
application serializes are ASCII); space becomes `+`. -/
def percentEncodeChar (ch : Char) : List Char :=
  if isUrlSafe ch then [ch]
  else if ch = ' ' then ['+']
  else ['%', hexDigit (ch.toNat / 16 % 16), hexDigit (ch.toNat % 16)]

/-- Form-urlencoding of one name or value. -/
def formUrlEncode (s : String) : String :=
  ⟨s.toList.flatMap percentEncodeChar⟩

/-- Model of `URLSearchParams.toString()` over an ordered parameter
list. -/
def urlSearchParamsToString (ps : List (String × String)) : String :=
  String.intercalate "&" (ps.map (fun p => formUrlEncode p.1 ++ "=" ++ formUrlEncode p.2))

/-- The worker's environment bindings (`CloudflareBindings`), restricted
to the configuration the modelled core reads. -/
structure Env where
  CLIENT_ID : String
  CLIENT_SECRET : String
  REDIRECT_URI : String
  ENV_URI : String
  SESSION_ENC_SECRET : Option String
  deriving Repr, DecidableEq

/-- Result of `generateAuthUrl` (`AuthInitResult`). -/
structure AuthInitResult where
  url : String
  codeVerifier : String
  state : String
  deriving Repr, DecidableEq

/-- Model of `generatePKCE`: the verifier is the base64url of the random
bytes (32 of them at the call site), the challenge the base64url of the
SHA-256 digest of the verifier string.  `sha256` is the platform digest,
a parameter of the model. -/
def generatePKCE (sha256 : String → List Nat) (randomBytes : List Nat) :
    String × String :=
  let codeVerifier := base64UrlEncode randomBytes
  (codeVerifier, base64UrlEncode (sha256 codeVerifier))

/-- The ordered query-parameter list `generateAuthUrl` builds. -/
def authParams (env : Env) (codeChallenge state : String) : List (String × String) :=
  [("client_id", env.CLIENT_ID),
   ("response_type", "code"),
   ("scope", String.intercalate " " SCOPES),
   ("redirect_uri", env.REDIRECT_URI),
   ("code_challenge", codeChallenge),
   ("code_challenge_method", "S256"),
   ("state", state)]

/-- Model of `generateAuthUrl`: PKCE pair from 32 random bytes, state
from 16 random bytes, authorize-endpoint URL carrying the parameter
list. -/
def generateAuthUrl (env : Env) (sha256 : String → List Nat)
    (verifierBytes stateBytes : List Nat) : AuthInitResult :=
  let pkce := generatePKCE sha256 verifierBytes
  let state := base64UrlEncode stateBytes
  { url := env.ENV_URI ++ "/a/consumer/api/v0/oidc/auth?" ++
      urlSearchParamsToString (authParams env pkce.2 state),
    codeVerifier := pkce.1,
    state := state }

/-- Query parameters of the callback request, each possibly absent. -/
structure CallbackQuery where
  code : Option String
  state : Option String
  error : Option String
  error_description : Option String
  deriving Repr, DecidableEq

/-- Errors thrown by the callback path (`throw new Error(...)` sites of
processAuthCallback and handleOAuthCallback). -/
inductive AuthError where
  | providerError (msg : String)
  | noCode
  | noState
  | invalidState
  | noVerifier
  | exchangeFailed (msg : String)
  | noAccessToken
  | jwtDecodeFailed
  | noEncSecret
  deriving Repr, DecidableEq

/-- The `error.message` string of each thrown error, as the route
handler concatenates it into its 500 response body. -/
def AuthError.message : AuthError → String
  | .providerError m => m
  | .noCode => "No code provided"
  | .noState => "No state provided"
  | .invalidState => "Invalid or expired OAuth state"
  | .noVerifier => "Invalid state or missing code verifier"
  | .exchangeFailed m => m
  | .noAccessToken => "Token exchange failed"
  | .jwtDecodeFailed => "JWT decode failed"
  | .noEncSecret => "SESSION_ENC_SECRET required"

/-- KV configuration `processAuthCallback` and `initiateAuth` build:
`new KVService(kv, c.env.SESSION_ENC_SECRET, { requireSecret: false })`
never throws, and normalizes an absent or empty secret to none. -/
def cbCfg (encSecret : Option String) : KVConfig :=
  ⟨normalizeSecrets (match encSecret with | none => .noSecret | some s => .one s)⟩

/-- Model of `initiateAuth`'s state write: persist
`auth_state:state -> {codeVerifier}` with a 600-second expiration. -/
def initiateAuthStore (encSecret : Option String) (σ : SStore) (now : Nat)
    (state codeVerifier : String) (iv : Nat) : SStore :=
  KVService.put (cbCfg encSecret) σ (authStateKey state) (.vauth codeVerifier)
    iv (some (now + 600))

/-- Model of `processAuthCallback` (auth.service.ts): provider-error,
missing-code and missing-state guards; then look the state up, delete it
inside the found branch, reject a falsy verifier, and run the code
exchange (`exchange` is the token-endpoint call, `none` a thrown non-2xx
failure).  The deployed worker has its KV namespace bound, so the
`SESSIONS_KV` presence check is not modelled. -/
def processAuthCallback (encSecret : Option String) (σ : SStore) (now : Nat)
    (q : CallbackQuery)
    (exchange : String → String → Option TokenResponse) :
    Except AuthError TokenResponse × SStore :=
  if jsTruthy q.error then
    (.error (.providerError (jsOrStr q.error_description (jsOrStr q.error "Unknown error"))), σ)
  else if ! jsTruthy q.code then
    (.error .noCode, σ)
  else if ! jsTruthy q.state then
    (.error .noState, σ)
  else
    let st := q.state.getD ""
    match KVService.get (cbCfg encSecret) σ (authStateKey st) now with
    | some kvv =>
      let cv : Option String := match kvv with | .vauth c => some c | _ => none
      let σ1 := KVService.delete (cbCfg encSecret) σ (authStateKey st)
      if ! jsTruthy cv then
        (.error .noVerifier, σ1)
      else
        match exchange (q.code.getD "") (cv.getD "") with
        | some tr => (.ok tr, σ1)
        | none => (.error (.exchangeFailed "Token exchange failed"), σ1)
    | none => (.error .invalidState, σ)

/-- Model of `handleOAuthCallback` (src/utils/auth.ts): run the
callback, require an access token, decode the identity token's `sub`
(`decodeJwt`, `none` a thrown decode failure), require the encryption
secret, then update the user's existing session in place or mint
`newSessionId` and create one.  The signed-cookie write is an effect
outside the store and is not modelled.  An absent `expires_in` makes the
source compute a NaN expiry; the model takes that field as present
(`getD 0` is never exercised by the theorems below). -/
def handleOAuthCallback (encSecret : Option String) (σ : SStore) (nowMs : Nat)
    (q : CallbackQuery)
    (exchange : String → String → Option TokenResponse)
    (decodeJwt : String → Option String) (newSessionId : String)
    (iv1 iv2 : Nat) :
    Except AuthError String × SStore :=
  let nowSec := nowMs / 1000
  match processAuthCallback encSecret σ nowSec q exchange with
  | (.error e, σ1) => (.error e, σ1)
  | (.ok tokens, σ1) =>
    if tokens.access_token = "" then (.error .noAccessToken, σ1)
    else
      match decodeJwt (tokens.id_token.getD "") with
      | none => (.error .jwtDecodeFailed, σ1)
      | some userId =>
        if ! jsTruthy encSecret then (.error .noEncSecret, σ1)
        else
          let s := encSecret.getD ""
          let d : SessionData :=
            ⟨userId, tokens.access_token, tokens.refresh_token.getD "",
              nowMs + (tokens.expires_in.getD 0) * 1000⟩
          match SessionService.getUserSessionId s σ1 nowSec userId with
          | some esid =>
            if esid ≠ "" then
              (.ok esid, SessionService.updateSession s σ1 nowSec esid d iv1)
            else
              (.ok newSessionId,
                SessionService.createUserSession s σ1 nowSec newSessionId userId d iv1 iv2)
          | none =>
            (.ok newSessionId,
              SessionService.createUserSession s σ1 nowSec newSessionId userId d iv1 iv2)

/-- HTTP responses the `/callback` route produces. -/
inductive HttpResponse where
  | redirect (location : String)
  | text (status : Nat) (body : String)
  deriving Repr, DecidableEq

/-- Whether a response is a redirect. -/
def HttpResponse.isRedirect : HttpResponse → Bool
  | .redirect _ => true
  | .text _ _ => false

/-- Model of the `/callback` route handler (auth.routes.ts): a provider
`error` parameter yields a 400 text; a missing `code` redirects to
`/auth/login`; otherwise `handleOAuthCallback` runs, a success redirects
to `/callback/plugin`, and any thrown error is caught and rendered as a
500 text. -/
def callbackRoute (encSecret : Option String) (σ : SStore) (nowMs : Nat)
    (q : CallbackQuery)
    (exchange : String → String → Option TokenResponse)
    (decodeJwt : String → Option String) (newSessionId : String)
    (iv1 iv2 : Nat) : HttpResponse × SStore :=
  if jsTruthy q.error then
    (.text 400 ("Authentication Error: " ++ jsOrStr q.error_description (q.error.getD "")), σ)
  else if ! jsTruthy q.code then
    (.redirect "/auth/login", σ)
  else
    match handleOAuthCallback encSecret σ nowMs q exchange decodeJwt newSessionId iv1 iv2 with
    | (.ok _, σ1) => (.redirect "/callback/plugin", σ1)
    | (.error e, σ1) => (.text 500 ("Error during authentication: " ++ e.message), σ1)

/-! Helper lemmas: string keys, and how `KVService.get` interacts with
`put` and `delete`. -/

theorem data_append (a b : String) : (a ++ b).data = a.data ++ b.data := by
  cases a; cases b; rfl

theorem str_ext {a b : String} (h : a.data = b.data) : a = b := by
  cases a; cases b; exact congrArg String.mk h

theorem key_cancel (p : String) {a b : String} (h : p ++ a = p ++ b) : a = b := by
  have h2 : p.data ++ a.data = p.data ++ b.data := by
    rw [← data_append, ← data_append, h]
  exact str_ext (List.append_cancel_left h2)

theorem sessionKey_inj {a b : String} (h : sessionKey a = sessionKey b) : a = b :=
  key_cancel "session:" h

theorem userKey_ne_sessionKey (u i : String) : userKey u ≠ sessionKey i := by
  intro h
  have h2 : (userKey u).data = (sessionKey i).data := by rw [h]
  rw [userKey, sessionKey, data_append, data_append] at h2
  have h3 := congrArg (fun l => l.headD ' ') h2
  simp at h3

theorem sget_put_self {α : Type} (s : String) (σ : Store α) (k : String)
    (v : α) (iv : Nat) (e now : Nat) :
    KVService.get ⟨[s]⟩ (KVService.put ⟨[s]⟩ σ k v iv (some e)) k now =
      if now < e then some v else none := by
  simp only [KVService.get, KVService.put, kvRawPut, kvRawGet, firstDecrypt,
    tryDecrypt, deriveKey, if_pos rfl]
  by_cases h : now < e
  · simp [h]
  · simp [h]

theorem sget_put_other {α : Type} (cfg cfg2 : KVConfig) (σ : Store α)
    (k k2 : String) (v : α) (iv : Nat) (e : Option Nat) (now : Nat)
    (h : k2 ≠ k) :
    KVService.get cfg (KVService.put cfg2 σ k v iv e) k2 now =
      KVService.get cfg σ k2 now := by
  simp only [KVService.get, KVService.put, kvRawPut, kvRawGet, if_neg h]

theorem sget_delete_self {α : Type} (cfg cfg2 : KVConfig) (σ : Store α)
    (k : String) (now : Nat) :
    KVService.get cfg (KVService.delete cfg2 σ k) k now = none := by
  simp [KVService.get, KVService.delete, kvRawDelete, kvRawGet]

theorem sget_delete_other {α : Type} (cfg cfg2 : KVConfig) (σ : Store α)
    (k k2 : String) (now : Nat) (h : k2 ≠ k) :
    KVService.get cfg (KVService.delete cfg2 σ k) k2 now =
      KVService.get cfg σ k2 now := by
  simp only [KVService.get, KVService.delete, kvRawDelete, kvRawGet, if_neg h]

theorem put_apply_self {α : Type} (cfg : KVConfig) (σ : Store α) (k : String)
    (v : α) (iv : Nat) (e : Option Nat) :
    KVService.put cfg σ k v iv e k =
      some ⟨match cfg.secrets with
            | [] => .plain v
            | s :: _ => .enc (deriveKey s) iv v, e⟩ := by
  simp [KVService.put, kvRawPut]

theorem put_apply_other {α : Type} (cfg : KVConfig) (σ : Store α)
    (k k2 : String) (v : α) (iv : Nat) (e : Option Nat) (h : k2 ≠ k) :
    KVService.put cfg σ k v iv e k2 = σ k2 := by
  simp [KVService.put, kvRawPut, if_neg h]

theorem delete_apply_self {α : Type} (cfg : KVConfig) (σ : Store α) (k : String) :
    KVService.delete cfg σ k k = none := by
  simp [KVService.delete, kvRawDelete]

theorem delete_apply_other {α : Type} (cfg : KVConfig) (σ : Store α)
    (k k2 : String) (h : k2 ≠ k) :
    KVService.delete cfg σ k k2 = σ k2 := by
  simp [KVService.delete, kvRawDelete, if_neg h]

theorem jsOrNat_pos (o : Option Nat) : 0 < jsOrNat o 3600 := by
  cases o with
  | none => simp [jsOrNat]
  | some n =>
    by_cases h : n = 0
    · simp [jsOrNat, h]
    · simp [jsOrNat, h, Nat.pos_of_ne_zero h]

/-! Claim C10. -/

/-- Claim C10: for every stored session record whose persisted
`expiresAt` field is `0`, `getSession` returns the record unchanged
(with the zero expiry) and never attempts a token refresh — the result
and the store are the same for every refresh oracle, because the
truthiness guard `kvRes.expiresAt && kvRes.expiresAt < now` treats the
falsy `0` as not expired. -/
theorem c10_zero_expiry_not_refreshed (s : String) (σ : SStore) (now : Nat)
    (sid : String) (r : SessionRec) (refresh : String → Option TokenResponse) (iv : Nat)
    (hget : KVService.get (sessCfg s) σ (sessionKey sid) now = some (.vrec r))
    (h0 : r.expiresAt = 0) :
    SessionService.getSession s σ now sid refresh iv =
      (some ⟨r.userId, r.accessToken, r.refreshToken, 0⟩, σ) := by
  simp only [SessionService.getSession, hget]
  simp [h0]

/-- Witness for C10 at a concrete store: a record stored with
`expiresAt = 0` read at `now = 100` comes back unchanged and the store
is untouched. -/
def st10 : SStore :=
  KVService.put (sessCfg "k") (fun _ => none) (sessionKey "sid")
    (.vrec ⟨"u", "at", "rt", 0⟩) 7 (some 1000)

theorem c10_zero_expiry_not_refreshed_witness :
    KVService.get (sessCfg "k") st10 (sessionKey "sid") 100 =
        some (.vrec ⟨"u", "at", "rt", 0⟩) ∧
    SessionService.getSession "k" st10 100 "sid"
        (fun _ => some ⟨"AT2", none, some "RT2", some 9999⟩) 3 =
      (some ⟨"u", "at", "rt", 0⟩, st10) :=
  ⟨by decide,
   c10_zero_expiry_not_refreshed "k" st10 100 "sid" ⟨"u", "at", "rt", 0⟩
     (fun _ => some ⟨"AT2", none, some "RT2", some 9999⟩) 3 (by decide) rfl⟩

/-! Claim C2. -/

/-- Store for the C2 counterexample: a session record persisted with
`expiresAt = 0`. -/
def st2 : SStore :=
  KVService.put (sessCfg "k") (fun _ => none) (sessionKey "sid")
    (.vrec ⟨"u", "at", "rt", 0⟩) 7 (some 1000)

/-- Claim C2 counterexample: the stored `expiresAt` of `0` lies strictly
in the past at `now = 100`, and the refresh oracle would succeed with a
later expiry, yet `getSession` returns the record un-refreshed — its
`expiresAt` (0) is not strictly later than the stored one (0 seconds)
— and the record still exists in the store, falsifying the claimed
disjunction. -/
theorem c2_counterexample_zero_expiry :
    (0 : Nat) < 100 ∧
    (SessionService.getSession "k" st2 100 "sid"
        (fun _ => some ⟨"AT2", none, some "RT2", some 9999⟩) 3).1 =
      some ⟨"u", "at", "rt", 0⟩ ∧
    ¬ ((0 : Nat) * 1000 < 0) ∧
    (SessionService.getSession "k" st2 100 "sid"
        (fun _ => some ⟨"AT2", none, some "RT2", some 9999⟩) 3).2 (sessionKey "sid") ≠
      none := by
  decide

/-- Claim C2 (amended): for every stored session record whose
`expiresAt` is nonzero and strictly in the past, `getSession` either
returns a record with a strictly later `expiresAt` and persists the
refreshed record, or — when the upstream refresh fails — returns
not-found and the session record no longer exists in the store. -/
theorem c2_expired_session_refreshed_or_purged (s : String) (σ : SStore)
    (now : Nat) (sid : String) (r : SessionRec)
    (refresh : String → Option TokenResponse) (iv : Nat)
    (hget : KVService.get (sessCfg s) σ (sessionKey sid) now = some (.vrec r))
    (hnz : r.expiresAt ≠ 0) (hlt : r.expiresAt < now) :
    (∀ tr, refresh r.refreshToken = some tr →
      (SessionService.getSession s σ now sid refresh iv).1 =
        some ⟨r.userId, tr.access_token, jsOrStr tr.refresh_token r.refreshToken,
          (now + jsOrNat tr.expires_in 3600) * 1000⟩ ∧
      r.expiresAt * 1000 < (now + jsOrNat tr.expires_in 3600) * 1000 ∧
      (SessionService.getSession s σ now sid refresh iv).2 (sessionKey sid) =
        some ⟨.enc (deriveKey s) iv
          (.vrec ⟨r.userId, tr.access_token, jsOrStr tr.refresh_token r.refreshToken,
            now + jsOrNat tr.expires_in 3600⟩),
          some (now + thirtyDays)⟩) ∧
    (refresh r.refreshToken = none →
      (SessionService.getSession s σ now sid refresh iv).1 = none ∧
      (SessionService.getSession s σ now sid refresh iv).2 (sessionKey sid) = none) := by
  constructor
  · intro tr htr
    simp only [SessionService.getSession, hget]
    rw [if_pos ⟨hnz, hlt⟩]
    simp only [htr]
    refine ⟨by trivial, ?_, ?_⟩
    · have h1 : r.expiresAt < now + jsOrNat tr.expires_in 3600 :=
        lt_of_lt_of_le hlt (Nat.le_add_right _ _)
      exact (Nat.mul_lt_mul_right (by norm_num)).mpr h1
    · simp only [SessionService.updateSession]
      rw [put_apply_self]
      simp only [sessCfg]
      rw [Nat.mul_div_cancel _ (by norm_num : (0 : Nat) < 1000)]
  · intro hfail
    simp only [SessionService.getSession, hget]
    rw [if_pos ⟨hnz, hlt⟩]
    simp only [hfail]
    exact ⟨by trivial, delete_apply_self _ _ _⟩

/-- Witness for the amended C2, both branches exercised on concrete
stores: a record with `expiresAt = 50 < now = 100` is refreshed and
persisted when the upstream succeeds, and purged when it fails. -/
def st2b : SStore :=
  KVService.put (sessCfg "k") (fun _ => none) (sessionKey "sid")
    (.vrec ⟨"u", "at", "rt", 50⟩) 7 (some 1000)

theorem c2_expired_session_refreshed_or_purged_witness :
    (KVService.get (sessCfg "k") st2b (sessionKey "sid") 100 =
        some (.vrec ⟨"u", "at", "rt", 50⟩) ∧ (50 : Nat) ≠ 0 ∧ (50 : Nat) < 100) ∧
    ((∀ tr, (fun _ => none : String → Option TokenResponse) "rt" = some tr →
        (SessionService.getSession "k" st2b 100 "sid" (fun _ => none) 3).1 =
          some ⟨"u", tr.access_token, jsOrStr tr.refresh_token "rt",
            (100 + jsOrNat tr.expires_in 3600) * 1000⟩ ∧
        (50 : Nat) * 1000 < (100 + jsOrNat tr.expires_in 3600) * 1000 ∧
        (SessionService.getSession "k" st2b 100 "sid" (fun _ => none) 3).2 (sessionKey "sid") =
          some ⟨.enc (deriveKey "k") 3
            (.vrec ⟨"u", tr.access_token, jsOrStr tr.refresh_token "rt",
              100 + jsOrNat tr.expires_in 3600⟩),
            some (100 + thirtyDays)⟩) ∧
      ((fun _ => none : String → Option TokenResponse) "rt" = none →
        (SessionService.getSession "k" st2b 100 "sid" (fun _ => none) 3).1 = none ∧
        (SessionService.getSession "k" st2b 100 "sid" (fun _ => none) 3).2 (sessionKey "sid") =
          none)) :=
  ⟨⟨by decide, by decide, by decide⟩,
   c2_expired_session_refreshed_or_purged "k" st2b 100 "sid" ⟨"u", "at", "rt", 50⟩
     (fun _ => none) 3 (by decide) (by decide) (by decide)⟩

/-! Claim C4. -/

/-- Store for the C4 counterexample: a session with stored refresh token
`"OLD"`. -/
def st4 : SStore :=
  KVService.put (sessCfg "k") (fun _ => none) (sessionKey "sid")
    (.vrec ⟨"u", "at", "OLD", 50⟩) 7 (some 1000)

/-- Claim C4 counterexample: the provider's response carries
`refresh_token: ""` and `expires_in: 0` — both present, so the claim
says the persisted refreshToken is `""` and the new expiry is
`now + 0` — but `refreshTokens` keeps the prior token `"OLD"` and
defaults the expiry to 3600 seconds, because the source uses the
JavaScript truthiness operator `||`, which also treats a present empty
string and a present zero as absent. -/
theorem c4_counterexample_falsy_provider_fields :
    (SessionService.refreshTokens "k" st4 100 "sid"
        (fun _ => some ⟨"AT", none, some "", some 0⟩) 3).1 =
      some ⟨"u", "AT", "OLD", (100 + 3600) * 1000⟩ ∧
    ("OLD" : String) ≠ "" ∧
    (100 + 3600) * 1000 ≠ (100 + 0) * 1000 := by
  decide

/-- Claim C4 (amended): for every refresh on a session — the manual
`refreshTokens` and the implicit refresh inside `getSession`, which
performs the identical computation when the record is expired — a
successful upstream response persists a record whose refreshToken is
the provider's refresh_token when the provider returned a nonempty
one and the prior stored refreshToken when the provider omitted it or
returned an empty one, and whose expiresAt is the current time plus the
provider's expires_in, defaulting to 3600 seconds when expires_in is
absent or zero. -/
theorem c4_refresh_token_and_expiry_semantics (s : String) (σ : SStore)
    (now : Nat) (sid : String) (r : SessionRec) (tr : TokenResponse)
    (refresh : String → Option TokenResponse) (iv : Nat)
    (hget : KVService.get (sessCfg s) σ (sessionKey sid) now = some (.vrec r))
    (htr : refresh r.refreshToken = some tr) :
    ((SessionService.refreshTokens s σ now sid refresh iv).1 =
      some ⟨r.userId, tr.access_token, jsOrStr tr.refresh_token r.refreshToken,
        (now + jsOrNat tr.expires_in 3600) * 1000⟩) ∧
    ((SessionService.refreshTokens s σ now sid refresh iv).2 (sessionKey sid) =
      some ⟨.enc (deriveKey s) iv
        (.vrec ⟨r.userId, tr.access_token, jsOrStr tr.refresh_token r.refreshToken,
          now + jsOrNat tr.expires_in 3600⟩),
        some (now + thirtyDays)⟩) ∧
    (r.expiresAt ≠ 0 → r.expiresAt < now →
      SessionService.getSession s σ now sid refresh iv =
        SessionService.refreshTokens s σ now sid refresh iv) ∧
    ((tr.refresh_token = none ∨ tr.refresh_token = some "") →
      jsOrStr tr.refresh_token r.refreshToken = r.refreshToken) ∧
    (∀ x, tr.refresh_token = some x → x ≠ "" →
      jsOrStr tr.refresh_token r.refreshToken = x) ∧
    ((tr.expires_in = none ∨ tr.expires_in = some 0) →
      jsOrNat tr.expires_in 3600 = 3600) ∧
    (∀ n, tr.expires_in = some n → n ≠ 0 → jsOrNat tr.expires_in 3600 = n) := by
  refine ⟨?_, ?_, ?_, ?_, ?_, ?_, ?_⟩
  · simp only [SessionService.refreshTokens, hget, htr]
  · simp only [SessionService.refreshTokens, hget, htr,
      SessionService.updateSession]
    rw [put_apply_self]
    simp only [sessCfg]
    rw [Nat.mul_div_cancel _ (by norm_num : (0 : Nat) < 1000)]
  · intro hnz hlt
    simp only [SessionService.refreshTokens, SessionService.getSession, hget, htr]
    rw [if_pos ⟨hnz, hlt⟩]
  · rintro (h | h) <;> simp [jsOrStr, h]
  · intro x hx hne
    simp [jsOrStr, hx, hne]
  · rintro (h | h) <;> simp [jsOrNat, h]
  · intro n hn hne
    simp [jsOrNat, hn, hne]

/-- Witness for the amended C4 on a concrete store, with a provider
response that returns a fresh nonempty refresh token and a nonzero
expires_in. -/
theorem c4_refresh_token_and_expiry_semantics_witness :
    KVService.get (sessCfg "k") st4 (sessionKey "sid") 100 =
        some (.vrec ⟨"u", "at", "OLD", 50⟩) ∧
    ((SessionService.refreshTokens "k" st4 100 "sid"
        (fun _ => some ⟨"AT", none, some "NEW", some 60⟩) 3).1 =
      some ⟨"u", "AT", jsOrStr (some "NEW") "OLD", (100 + jsOrNat (some 60) 3600) * 1000⟩) ∧
    ((SessionService.refreshTokens "k" st4 100 "sid"
        (fun _ => some ⟨"AT", none, some "NEW", some 60⟩) 3).2 (sessionKey "sid") =
      some ⟨.enc (deriveKey "k") 3
        (.vrec ⟨"u", "AT", jsOrStr (some "NEW") "OLD", 100 + jsOrNat (some 60) 3600⟩),
        some (100 + thirtyDays)⟩) ∧
    ((50 : Nat) ≠ 0 → (50 : Nat) < 100 →
      SessionService.getSession "k" st4 100 "sid"
          (fun _ => some ⟨"AT", none, some "NEW", some 60⟩) 3 =
        SessionService.refreshTokens "k" st4 100 "sid"
          (fun _ => some ⟨"AT", none, some "NEW", some 60⟩) 3) ∧
    (((some "NEW" : Option String) = none ∨ (some "NEW" : Option String) = some "") →
      jsOrStr (some "NEW") "OLD" = "OLD") ∧
    (∀ x, (some "NEW" : Option String) = some x → x ≠ "" →
      jsOrStr (some "NEW") "OLD" = x) ∧
    (((some 60 : Option Nat) = none ∨ (some 60 : Option Nat) = some 0) →
      jsOrNat (some 60) 3600 = 3600) ∧
    (∀ n, (some 60 : Option Nat) = some n → n ≠ 0 → jsOrNat (some 60) 3600 = n) :=
  ⟨by decide,
   c4_refresh_token_and_expiry_semantics "k" st4 100 "sid" ⟨"u", "at", "OLD", 50⟩
     ⟨"AT", none, some "NEW", some 60⟩
     (fun _ => some ⟨"AT", none, some "NEW", some 60⟩) 3 (by decide) (by decide)⟩

/-! Claim C1. -/

/-- Claim C1: after `createUserSession(id1, u, r1)` followed by
`createUserSession(id2, u, r2)` with `id2 ≠ id1`, the old session
record is gone — `getSession(id1)` returns not-found — and the index
points at the new session — `getUserSessionId(u) = id2` — so at most
one session identifier is current per user.  Session identifiers are
nonempty (the source mints them with `crypto.randomUUID()` and the spec
requires at least 16 random bytes), and each step happens before the
previous write's thirty-day TTL has elapsed. -/
theorem c1_second_session_delete_first (s : String) (σ : SStore)
    (now1 now2 now3 : Nat) (id1 id2 u : String) (r1 r2 : SessionData)
    (iv1 iv2 iv3 iv4 iv5 : Nat) (refresh : String → Option TokenResponse)
    (hne : id2 ≠ id1) (hid1 : id1 ≠ "")
    (h12 : now2 < now1 + thirtyDays) (h23 : now3 < now2 + thirtyDays) :
    (SessionService.getSession s
        (SessionService.createUserSession s
          (SessionService.createUserSession s σ now1 id1 u r1 iv1 iv2)
          now2 id2 u r2 iv3 iv4)
        now3 id1 refresh iv5).1 = none ∧
    SessionService.getUserSessionId s
        (SessionService.createUserSession s
          (SessionService.createUserSession s σ now1 id1 u r1 iv1 iv2)
          now2 id2 u r2 iv3 iv4)
        now3 u = some id2 := by
  set σ1 := SessionService.createUserSession s σ now1 id1 u r1 iv1 iv2 with hσ1
  have hA : SessionService.getUserSessionId s σ1 now2 u = some id1 := by
    rw [hσ1]
    simp only [SessionService.createUserSession, SessionService.getUserSessionId, sessCfg]
    rw [sget_put_self, if_pos h12]
  have hne2 : id1 ≠ id2 := fun h => hne h.symm
  constructor
  · simp only [SessionService.createUserSession, hA]
    rw [if_pos ⟨hid1, hne2⟩]
    simp only [SessionService.getSession, SessionService.deleteSession, sessCfg]
    rw [sget_put_other _ _ _ _ _ _ _ _ _ (Ne.symm (userKey_ne_sessionKey u id1))]
    rw [sget_put_other _ _ _ _ _ _ _ _ _ (fun h => hne2 (sessionKey_inj h))]
    rw [sget_delete_self]
  · simp only [SessionService.createUserSession, hA]
    rw [if_pos ⟨hid1, hne2⟩]
    simp only [SessionService.getUserSessionId, sessCfg]
    rw [sget_put_self, if_pos h23]

/-- Witness for C1 at concrete inputs: two sessions created for user
`"u"` in sequence; the first identifier resolves to nothing and the
index yields the second identifier. -/
theorem c1_second_session_delete_first_witness :
    (("bbb" : String) ≠ "aaa" ∧ ("aaa" : String) ≠ "" ∧
      (20 : Nat) < 10 + thirtyDays ∧ (30 : Nat) < 20 + thirtyDays) ∧
    ((SessionService.getSession "k"
        (SessionService.createUserSession "k"
          (SessionService.createUserSession "k" (fun _ => none) 10 "aaa" "u"
            ⟨"u", "a1", "t1", 5000⟩ 1 2)
          20 "bbb" "u" ⟨"u", "a2", "t2", 6000⟩ 3 4)
        30 "aaa" (fun _ => none) 5).1 = none ∧
      SessionService.getUserSessionId "k"
        (SessionService.createUserSession "k"
          (SessionService.createUserSession "k" (fun _ => none) 10 "aaa" "u"
            ⟨"u", "a1", "t1", 5000⟩ 1 2)
          20 "bbb" "u" ⟨"u", "a2", "t2", 6000⟩ 3 4)
        30 "u" = some "bbb") :=
  ⟨⟨by decide, by decide, by decide, by decide⟩,
   c1_second_session_delete_first "k" (fun _ => none) 10 20 30 "aaa" "bbb" "u"
     ⟨"u", "a1", "t1", 5000⟩ ⟨"u", "a2", "t2", 6000⟩ 1 2 3 4 5 (fun _ => none)
     (by decide) (by decide) (by decide) (by decide)⟩

/-! Claim C3. -/

/-- Claim C3: a PKCE state token is single-use.  For every state `S`
whose entry was looked up by a callback (the guards passed and the
lookup found the entry, whatever the rest of that callback did), the
stored state entry is deleted by that callback, and a second well-formed
callback presenting the same state `S` fails with the
invalid-or-expired-state error. -/
theorem c3_state_token_single_use (enc : Option String) (σ : SStore)
    (now1 now2 : Nat) (q1 q2 : CallbackQuery)
    (ex1 ex2 : String → String → Option TokenResponse) (S : String) (kvv : KVVal)
    (hS : S ≠ "")
    (he1 : jsTruthy q1.error = false) (hc1 : jsTruthy q1.code = true)
    (hst1 : q1.state = some S)
    (hfound : KVService.get (cbCfg enc) σ (authStateKey S) now1 = some kvv)
    (he2 : jsTruthy q2.error = false) (hc2 : jsTruthy q2.code = true)
    (hst2 : q2.state = some S) :
    (processAuthCallback enc σ now1 q1 ex1).2 (authStateKey S) = none ∧
    (processAuthCallback enc (processAuthCallback enc σ now1 q1 ex1).2 now2 q2 ex2).1 =
      .error .invalidState := by
  have hdel : (processAuthCallback enc σ now1 q1 ex1).2 =
      KVService.delete (cbCfg enc) σ (authStateKey S) := by
    simp only [processAuthCallback, he1, hc1, hst1, Option.getD_some]
    simp [jsTruthy, hS]
    rw [hfound]
    split <;> first
      | rfl
      | (split <;> first
          | rfl
          | (split <;> rfl))
      | simp_all
  have hnone : KVService.get (cbCfg enc)
      (KVService.delete (cbCfg enc) σ (authStateKey S)) (authStateKey S) now2 = none :=
    sget_delete_self _ _ _ _ _
  constructor
  · rw [hdel, delete_apply_self]
  · rw [hdel]
    simp only [processAuthCallback, he2, hc2, hst2, Option.getD_some]
    simp [jsTruthy, hS]
    rw [hnone]

/-- Store for the C3 witness: one state entry written by the
login-initiation path. -/
def st3 : SStore :=
  initiateAuthStore (some "k") (fun _ => none) 0 "ST" "VER" 5

/-- Witness for C3 at concrete inputs: a state entry consumed by a first
callback is gone from the store, and a second callback with the same
state fails as invalid or expired. -/
theorem c3_state_token_single_use_witness :
    (("ST" : String) ≠ "" ∧
      KVService.get (cbCfg (some "k")) st3 (authStateKey "ST") 100 =
        some (.vauth "VER")) ∧
    ((processAuthCallback (some "k") st3 100 ⟨some "c1", some "ST", none, none⟩
        (fun _ _ => some ⟨"AT", some "JWT", some "RT", some 3600⟩)).2 (authStateKey "ST") =
      none ∧
    (processAuthCallback (some "k")
        (processAuthCallback (some "k") st3 100 ⟨some "c1", some "ST", none, none⟩
          (fun _ _ => some ⟨"AT", some "JWT", some "RT", some 3600⟩)).2
        200 ⟨some "c2", some "ST", none, none⟩
        (fun _ _ => some ⟨"AT", some "JWT", some "RT", some 3600⟩)).1 =
      .error .invalidState) :=
  ⟨⟨by decide, by decide⟩,
   c3_state_token_single_use (some "k") st3 100 200
     ⟨some "c1", some "ST", none, none⟩ ⟨some "c2", some "ST", none, none⟩
     (fun _ _ => some ⟨"AT", some "JWT", some "RT", some 3600⟩)
     (fun _ _ => some ⟨"AT", some "JWT", some "RT", some 3600⟩)
     "ST" (.vauth "VER") (by decide) (by decide) (by decide) (by decide)
     (by decide) (by decide) (by decide) (by decide)⟩

/-! Claim C5. -/

theorem firstDecrypt_mem {α : Type} (s : String) (l : List String) (iv : Nat)
    (v : α) (h : s ∈ l) :
    firstDecrypt l (.enc (deriveKey s) iv v) = some v := by
  induction l with
  | nil => cases h
  | cons t rest ih =>
    by_cases ht : deriveKey t = deriveKey s
    · simp [firstDecrypt, tryDecrypt, ht]
    · have hts : ¬ s = t := fun he => ht (by rw [he])
      rcases List.mem_cons.mp h with h1 | h2
      · exact absurd h1 hts
      · simp only [firstDecrypt, tryDecrypt, if_neg ht]
        exact ih h2

/-- Claim C5: round-trip through the Encrypted Store.  For every value
`v` and key `k`, after `put(k, v)` performed with a non-empty secret
list whose primary (head) secret is `s`, a `get(k)` performed with any
configured secret list containing `s` — in any position, e.g.
`[new, old]` after rotation with `s = old` — returns the original value,
as long as the entry's expiration has not passed. -/
theorem c5_encrypted_store_roundtrip {α : Type} (σ : Store α) (k : String)
    (v : α) (iv : Nat) (exp : Option Nat) (s : String) (rest l2 : List String)
    (now : Nat) (hmem : s ∈ l2) (hlive : ∀ t, exp = some t → now < t) :
    KVService.get ⟨l2⟩ (KVService.put ⟨s :: rest⟩ σ k v iv exp) k now = some v := by
  have hraw : kvRawGet (kvRawPut σ k ⟨.enc (deriveKey s) iv v, exp⟩) k now =
      some (.enc (deriveKey s) iv v) := by
    cases exp with
    | none => simp [kvRawGet, kvRawPut]
    | some t => simp [kvRawGet, kvRawPut, hlive t rfl]
  simp only [KVService.get, KVService.put]
  rw [hraw]
  cases l2 with
  | nil => cases hmem
  | cons t ts =>
    simp only []
    rw [firstDecrypt_mem s (t :: ts) iv v hmem]

/-- Witness for C5: a value encrypted under `"old"` alone (pre-rotation
data) still decrypts via a store configured with `["new", "old"]`. -/
theorem c5_encrypted_store_roundtrip_witness :
    ("old" : String) ∈ ["new", "old"] ∧
    KVService.get ⟨["new", "old"]⟩
        (KVService.put ⟨["old"]⟩ (fun _ => none) "key" "hello" 9 (some 700))
        "key" 100 = some "hello" :=
  ⟨by decide,
   c5_encrypted_store_roundtrip (fun _ => none) "key" "hello" 9 (some 700) "old"
     [] ["new", "old"] 100 (by decide) (by intro t ht; cases ht; decide)⟩

/-! Claim C6. -/

/-- Store for the C6 counterexample: a record written through
`updateSession` with `expiresAt = 1500` milliseconds. -/
def st6 : SStore :=
  SessionService.updateSession "k" (fun _ => none) 10 "sid" ⟨"u", "at", "rt", 1500⟩ 3

/-- Claim C6 counterexample: a record written with
`expiresAt = 1500` ms is read back by a non-expired `getSession` with
`expiresAt = 1000` ms, not `1500`: the store persists
`Math.floor(ms / 1000)` and scales back by `* 1000`, so the conversion
is not exact on sub-second values. -/
theorem c6_counterexample_subsecond_truncation :
    (SessionService.getSession "k" st6 1 "sid" (fun _ => none) 9).1 =
      some ⟨"u", "at", "rt", 1000⟩ ∧
    (1000 : Nat) ≠ 1500 := by
  decide

/-- Claim C6 (amended): for every record written via `createUserSession`
or `updateSession` with `expiresAt` value `t` milliseconds, a subsequent
non-expired `getSession` returns a record whose `expiresAt` equals `t`
truncated to whole seconds, `t / 1000 * 1000`; this equals `t` exactly
when `t` is a whole multiple of 1000 ms.  (The `createSession` name the
claim also lists does not exist in the source session service;
`createUserSession` is its write path.) -/
theorem c6_expiry_conversion_truncates (s : String) (σ : SStore) (nw nr : Nat)
    (sid uid : String) (d : SessionData) (iv1 iv2 iv3 : Nat)
    (refresh : String → Option TokenResponse)
    (hlive : nr < nw + thirtyDays)
    (hnexp : ¬ (d.expiresAt / 1000 ≠ 0 ∧ d.expiresAt / 1000 < nr)) :
    ((SessionService.getSession s
        (SessionService.updateSession s σ nw sid d iv1) nr sid refresh iv3).1 =
      some ⟨d.userId, d.accessToken, d.refreshToken, d.expiresAt / 1000 * 1000⟩) ∧
    ((SessionService.getSession s
        (SessionService.createUserSession s σ nw sid uid d iv1 iv2) nr sid refresh iv3).1 =
      some ⟨d.userId, d.accessToken, d.refreshToken, d.expiresAt / 1000 * 1000⟩) ∧
    (d.expiresAt % 1000 = 0 → d.expiresAt / 1000 * 1000 = d.expiresAt) := by
  refine ⟨?_, ?_, ?_⟩
  · simp only [SessionService.getSession, SessionService.updateSession, sessCfg]
    rw [sget_put_self, if_pos hlive]
    simp [hnexp]
  · simp only [SessionService.getSession, SessionService.createUserSession, sessCfg]
    rw [sget_put_other _ _ _ _ _ _ _ _ _ (Ne.symm (userKey_ne_sessionKey uid sid))]
    rw [sget_put_self, if_pos hlive]
    simp [hnexp]
  · intro h
    exact Nat.div_mul_cancel (Nat.dvd_of_mod_eq_zero h)

/-- Witness for the amended C6: a record written with a whole-second
`expiresAt` of 5000 ms reads back exactly. -/
theorem c6_expiry_conversion_truncates_witness :
    ((1 : Nat) < 10 + thirtyDays ∧
      ¬ ((5000 : Nat) / 1000 ≠ 0 ∧ (5000 : Nat) / 1000 < 1)) ∧
    (((SessionService.getSession "k"
        (SessionService.updateSession "k" (fun _ => none) 10 "sid"
          ⟨"u", "at", "rt", 5000⟩ 3) 1 "sid" (fun _ => none) 9).1 =
      some ⟨"u", "at", "rt", 5000 / 1000 * 1000⟩) ∧
    ((SessionService.getSession "k"
        (SessionService.createUserSession "k" (fun _ => none) 10 "sid" "u"
          ⟨"u", "at", "rt", 5000⟩ 3 4) 1 "sid" (fun _ => none) 9).1 =
      some ⟨"u", "at", "rt", 5000 / 1000 * 1000⟩) ∧
    ((5000 : Nat) % 1000 = 0 → (5000 : Nat) / 1000 * 1000 = 5000)) :=
  ⟨⟨by decide, by decide⟩,
   c6_expiry_conversion_truncates "k" (fun _ => none) 10 1 "sid" "u"
     ⟨"u", "at", "rt", 5000⟩ 3 4 9 (fun _ => none) (by decide) (by decide)⟩

/-! Claim C8. -/

/-- Claim C8: constructing the Encrypted Store with encryption mandatory
(the `requireSecret` option not literally `false`) and no non-empty
secret raises an error at construction time, before any operation; the
Session Store constructs its Encrypted Store with
`{ requireSecret: true }` (first conjunct, definitional), so a Session
Store over an absent (or empty) encryption secret fails at construction,
while a non-empty secret constructs the singleton-secret
configuration. -/
theorem c8_construction_fail_fast :
    (∀ sec : Option String, SessionService.mk sec =
      KVService.mk (match sec with | none => .noSecret | some s => .one s) (some true)) ∧
    (∀ arg opt, normalizeSecrets arg = [] → opt ≠ some false →
      KVService.mk arg opt =
        .error "KV encryption required but no SESSION_ENC_SECRET provided") ∧
    (∀ sec : Option String, sec = none ∨ sec = some "" →
      SessionService.mk sec =
        .error "KV encryption required but no SESSION_ENC_SECRET provided") ∧
    (∀ s : String, s ≠ "" → SessionService.mk (some s) = .ok ⟨[s]⟩) := by
  refine ⟨fun _ => rfl, ?_, ?_, ?_⟩
  · intro arg opt h1 h2
    simp [KVService.mk, h1, h2]
  · rintro sec (h | h) <;> subst h <;> rfl
  · intro s hs
    simp [SessionService.mk, KVService.mk, normalizeSecrets, hs]

/-- Witness for C8: an empty-string secret with encryption required
errors, an absent secret errors through the Session Store constructor,
and a real secret constructs. -/
theorem c8_construction_fail_fast_witness :
    SessionService.mk (some "secret") =
      KVService.mk (.one "secret") (some true) ∧
    KVService.mk (.one "") none =
      .error "KV encryption required but no SESSION_ENC_SECRET provided" ∧
    SessionService.mk none =
      .error "KV encryption required but no SESSION_ENC_SECRET provided" ∧
    SessionService.mk (some "secret") = .ok ⟨["secret"]⟩ :=
  ⟨c8_construction_fail_fast.1 (some "secret"),
   c8_construction_fail_fast.2.1 (.one "") none (by decide) (by decide),
   c8_construction_fail_fast.2.2.1 none (Or.inl rfl),
   c8_construction_fail_fast.2.2.2 "secret" (by decide)⟩

/-! Claim C7. -/

/-- Claim C7 counterexample: a callback request with a `code` but no
`state` parameter produces the 500 error text response
`Error during authentication: No state provided`, not a redirect back to
the login flow — only a missing `code` redirects.  This falsifies the
claim that missing/invalid state is treated as a fresh-login
redirect. -/
theorem c7_counterexample_state_error_is_500 :
    (callbackRoute (some "k") (fun _ => none) 0 ⟨some "abc", none, none, none⟩
        (fun _ _ => none) (fun _ => none) "nid" 0 0).1 =
      .text 500 "Error during authentication: No state provided" ∧
    ((callbackRoute (some "k") (fun _ => none) 0 ⟨some "abc", none, none, none⟩
        (fun _ _ => none) (fun _ => none) "nid" 0 0).1).isRedirect = false := by
  decide

/-- Claim C7 (amended): for a callback request carrying a `code`, a
missing `state` or a `state` with no stored entry (absent or expired)
makes the callback respond with the 500 text
`Error during authentication: ...`, not a redirect; the redirect back to
the login flow happens only when `code` itself is missing. -/
theorem c7_state_errors_render_500 (enc : Option String) (σ : SStore)
    (nowMs : Nat) (q : CallbackQuery)
    (ex : String → String → Option TokenResponse)
    (dj : String → Option String) (nid : String) (iv1 iv2 : Nat)
    (he : jsTruthy q.error = false) (hc : jsTruthy q.code = true) :
    (jsTruthy q.state = false →
      (callbackRoute enc σ nowMs q ex dj nid iv1 iv2).1 =
        .text 500 "Error during authentication: No state provided") ∧
    (∀ S, q.state = some S → S ≠ "" →
      KVService.get (cbCfg enc) σ (authStateKey S) (nowMs / 1000) = none →
      (callbackRoute enc σ nowMs q ex dj nid iv1 iv2).1 =
        .text 500 "Error during authentication: Invalid or expired OAuth state") ∧
    (∀ q2 : CallbackQuery, jsTruthy q2.error = false → jsTruthy q2.code = false →
      (callbackRoute enc σ nowMs q2 ex dj nid iv1 iv2).1 = .redirect "/auth/login") := by
  refine ⟨?_, ?_, ?_⟩
  · intro hs
    simp [callbackRoute, he, hc, handleOAuthCallback, processAuthCallback, hs,
      AuthError.message]
  · intro S hS hSne hnone
    simp only [callbackRoute, he, hc, handleOAuthCallback, processAuthCallback,
      hS, Option.getD_some]
    simp only [jsTruthy, hSne]
    rw [hnone]
    simp [AuthError.message]
  · intro q2 he2 hc2
    simp [callbackRoute, he2, hc2]

/-- Witness for the amended C7 at concrete inputs. -/
theorem c7_state_errors_render_500_witness :
    (jsTruthy (⟨some "abc", none, none, none⟩ : CallbackQuery).error = false ∧
      jsTruthy (⟨some "abc", none, none, none⟩ : CallbackQuery).code = true) ∧
    ((jsTruthy (⟨some "abc", none, none, none⟩ : CallbackQuery).state = false →
      (callbackRoute (some "k") (fun _ => none) 0 ⟨some "abc", none, none, none⟩
          (fun _ _ => none) (fun _ => none) "nid" 0 0).1 =
        .text 500 "Error during authentication: No state provided") ∧
    (∀ S, (⟨some "abc", none, none, none⟩ : CallbackQuery).state = some S → S ≠ "" →
      KVService.get (cbCfg (some "k")) ((fun _ => none) : SStore) (authStateKey S) (0 / 1000) = none →
      (callbackRoute (some "k") (fun _ => none) 0 ⟨some "abc", none, none, none⟩
          (fun _ _ => none) (fun _ => none) "nid" 0 0).1 =
        .text 500 "Error during authentication: Invalid or expired OAuth state") ∧
    (∀ q2 : CallbackQuery, jsTruthy q2.error = false → jsTruthy q2.code = false →
      (callbackRoute (some "k") (fun _ => none) 0 q2
          (fun _ _ => none) (fun _ => none) "nid" 0 0).1 = .redirect "/auth/login")) :=
  ⟨⟨by decide, by decide⟩,
   c7_state_errors_render_500 (some "k") (fun _ => none) 0
     ⟨some "abc", none, none, none⟩ (fun _ _ => none) (fun _ => none) "nid" 0 0
     (by decide) (by decide)⟩

/-! Claim C9. -/

theorem getD_ne_pad (l : List Char) (hl : ∀ x ∈ l, x ≠ '=') (n : Nat) (d : Char)
    (hd : d ≠ '=') : l.getD n d ≠ '=' := by
  induction l generalizing n with
  | nil => simpa [List.getD] using hd
  | cons a t ih =>
    cases n with
    | zero => simpa [List.getD] using hl a (List.mem_cons_self a t)
    | succ m =>
      have h2 := ih (fun x hx => hl x (List.mem_cons_of_mem a hx)) m
      simpa [List.getD] using h2

theorem b64Char_ne_pad (n : Nat) : b64Char n ≠ '=' :=
  getD_ne_pad b64Chars (by decide) n 'A' (by decide)

theorem encodeBase64_shape (l : List Nat) :
    ∃ body pad, encodeBase64 l = body ++ pad ∧ (∀ ch ∈ body, ch ≠ '=') ∧
      (∀ ch ∈ pad, ch = '=') := by
  induction l using encodeBase64.induct with
  | case1 => exact ⟨[], [], rfl, by simp, by simp⟩
  | case2 a =>
    refine ⟨[b64Char (a / 4), b64Char (a % 4 * 16)], ['=', '='], rfl, ?_, by decide⟩
    intro ch hch
    have h2 : ch = b64Char (a / 4) ∨ ch = b64Char (a % 4 * 16) := by simpa using hch
    rcases h2 with h | h <;> (subst h; exact b64Char_ne_pad _)
  | case3 a b =>
    refine ⟨[b64Char (a / 4), b64Char (a % 4 * 16 + b / 16), b64Char (b % 16 * 4)],
      ['='], rfl, ?_, by decide⟩
    intro ch hch
    have h2 : ch = b64Char (a / 4) ∨ ch = b64Char (a % 4 * 16 + b / 16) ∨
        ch = b64Char (b % 16 * 4) := by simpa using hch
    rcases h2 with h | h | h <;> (subst h; exact b64Char_ne_pad _)
  | case4 a b c rest ih =>
    obtain ⟨body, pad, heq, hb, hp⟩ := ih
    refine ⟨b64Char (a / 4) :: b64Char (a % 4 * 16 + b / 16) ::
      b64Char (b % 16 * 4 + c / 64) :: b64Char (c % 64) :: body, pad, ?_, ?_, hp⟩
    · simp [encodeBase64, heq]
    · intro ch hch
      simp only [List.mem_cons] at hch
      rcases hch with h | h | h | h | h
      · subst h; exact b64Char_ne_pad _
      · subst h; exact b64Char_ne_pad _
      · subst h; exact b64Char_ne_pad _
      · subst h; exact b64Char_ne_pad _
      · exact hb ch h

theorem stripTrailingEq_append (body pad : List Char)
    (hb : ∀ ch ∈ body, ch ≠ '=') (hp : ∀ ch ∈ pad, ch = '=') :
    stripTrailingEq (body ++ pad) = body := by
  unfold stripTrailingEq
  rw [List.reverse_append, List.dropWhile_append]
  have h1 : pad.reverse.dropWhile (fun ch => ch = '=') = [] := by
    rw [List.dropWhile_eq_nil_iff]
    intro x hx
    simpa using hp x (List.mem_reverse.mp hx)
  have h2 : body.reverse.dropWhile (fun ch => ch = '=') = body.reverse := by
    cases hbr : body.reverse with
    | nil => simp
    | cons x xs =>
      have hx : x ≠ '=' := by
        apply hb
        rw [← List.mem_reverse, hbr]
        exact List.mem_cons_self _ _
      rw [List.dropWhile_cons]
      simp [hx]
  rw [h1, h2]
  simp

theorem b64UrlSwap_ne_pad (ch : Char) (h : ch ≠ '=') : b64UrlSwap ch ≠ '=' := by
  by_cases h1 : ch = '+'
  · simp [b64UrlSwap, h1]
  · by_cases h2 : ch = '/'
    · simp [b64UrlSwap, h1, h2]
    · simp [b64UrlSwap, h1, h2, h]

theorem base64UrlEncode_no_pad (bytes : List Nat) :
    '=' ∉ (base64UrlEncode bytes).data := by
  obtain ⟨body, pad, heq, hb, hp⟩ := encodeBase64_shape bytes
  have hb2 : ∀ ch ∈ body.map b64UrlSwap, ch ≠ '=' := by
    intro ch hch
    obtain ⟨x, hx, rfl⟩ := List.mem_map.mp hch
    exact b64UrlSwap_ne_pad x (hb x hx)
  have hp2 : ∀ ch ∈ pad.map b64UrlSwap, ch = '=' := by
    intro ch hch
    obtain ⟨x, hx, rfl⟩ := List.mem_map.mp hch
    rw [hp x hx]
    decide
  show '=' ∉ stripTrailingEq ((encodeBase64 bytes).map b64UrlSwap)
  rw [heq, List.map_append, stripTrailingEq_append _ _ hb2 hp2]
  intro hmem
  exact hb2 '=' hmem rfl

/-- Claim C9: for every invocation of the auth-initiation operation, the
returned `codeVerifier` is the unpadded base64url encoding of the 32
random bytes the source draws (so at least 32 bytes of randomness, with
no `=` padding character anywhere in it), the returned `state` encodes
the 16 random bytes drawn for it (at least 16 bytes of randomness), and
the returned authorization URL is the provider authorize endpoint
carrying exactly the query parameters `client_id`, `response_type=code`,
the space-joined fixed scope set, `redirect_uri`, `code_challenge` equal
to base64url(SHA-256(codeVerifier)), `code_challenge_method=S256` and
`state`, in that order. -/
theorem c9_auth_url_parameters (env : Env) (sha256 : String → List Nat)
    (vb sb : List Nat) (hv : vb.length = 32) (hs : sb.length = 16) :
    (generateAuthUrl env sha256 vb sb).codeVerifier = base64UrlEncode vb ∧
    32 ≤ vb.length ∧
    '=' ∉ ((generateAuthUrl env sha256 vb sb).codeVerifier).data ∧
    (generateAuthUrl env sha256 vb sb).state = base64UrlEncode sb ∧
    16 ≤ sb.length ∧
    (generateAuthUrl env sha256 vb sb).url =
      env.ENV_URI ++ "/a/consumer/api/v0/oidc/auth?" ++
        urlSearchParamsToString (authParams env
          (base64UrlEncode (sha256 (generateAuthUrl env sha256 vb sb).codeVerifier))
          (generateAuthUrl env sha256 vb sb).state) :=
  ⟨rfl, by omega, base64UrlEncode_no_pad vb, rfl, by omega, rfl⟩

/-- Witness for C9 at concrete byte lists of the lengths the source
draws. -/
theorem c9_auth_url_parameters_witness :
    ((List.replicate 32 7).length = 32 ∧ (List.replicate 16 1).length = 16) ∧
    ((generateAuthUrl ⟨"cid", "sec", "https://r", "https://e", none⟩
        (fun _ => List.replicate 32 250) (List.replicate 32 7)
        (List.replicate 16 1)).codeVerifier =
      base64UrlEncode (List.replicate 32 7) ∧
    32 ≤ (List.replicate 32 7).length ∧
    '=' ∉ ((generateAuthUrl ⟨"cid", "sec", "https://r", "https://e", none⟩
        (fun _ => List.replicate 32 250) (List.replicate 32 7)
        (List.replicate 16 1)).codeVerifier).data ∧
    (generateAuthUrl ⟨"cid", "sec", "https://r", "https://e", none⟩
        (fun _ => List.replicate 32 250) (List.replicate 32 7)
        (List.replicate 16 1)).state = base64UrlEncode (List.replicate 16 1) ∧
    16 ≤ (List.replicate 16 1).length ∧
    (generateAuthUrl ⟨"cid", "sec", "https://r", "https://e", none⟩
        (fun _ => List.replicate 32 250) (List.replicate 32 7)
        (List.replicate 16 1)).url =
      ("https://e" : String) ++ "/a/consumer/api/v0/oidc/auth?" ++
        urlSearchParamsToString (authParams ⟨"cid", "sec", "https://r", "https://e", none⟩
          (base64UrlEncode ((fun _ => List.replicate 32 250)
            ((generateAuthUrl ⟨"cid", "sec", "https://r", "https://e", none⟩
              (fun _ => List.replicate 32 250) (List.replicate 32 7)
              (List.replicate 16 1)).codeVerifier)))
          ((generateAuthUrl ⟨"cid", "sec", "https://r", "https://e", none⟩
              (fun _ => List.replicate 32 250) (List.replicate 32 7)
              (List.replicate 16 1)).state))) :=
  ⟨⟨by decide, by decide⟩,
   c9_auth_url_parameters ⟨"cid", "sec", "https://r", "https://e", none⟩
     (fun _ => List.replicate 32 250) (List.replicate 32 7) (List.replicate 16 1)
     (by decide) (by decide)⟩

end BannoCF
